import Mathlib

/-!
A shallow embedding of the linear optimal power flow (LOPF) model builder
of `pypsa/opf.py`.  Python floats are modelled as rationals; snapshot
weightings (hours per snapshot) are modelled as natural numbers so that the
decay factor `(1 - standing_loss) ** elapsed_hours` stays inside `ℚ`.
Identifiers (buses, snapshots, element names) are strings.  The pyomo model
is modelled as a record of association lists, one per named constraint
group, keyed by the same index tuples the source uses.
-/

namespace PyPSA

/-- The decision variables declared by the model builder, one constructor per
pyomo `Var` family of `opf.py`. -/
inductive LVar where
  | generator_p (gen sn : String)
  | generator_p_nom (gen : String)
  | storage_p_dispatch (su sn : String)
  | storage_p_store (su sn : String)
  | storage_p_spill (su sn : String)
  | storage_p_nom (su : String)
  | state_of_charge (su sn : String)
  | store_p (store sn : String)
  | store_e (store sn : String)
  | store_e_nom (store : String)
  | link_p (link sn : String)
  | link_p_nom (link : String)
  | passive_branch_p (bt bn sn : String)
  | passive_branch_s_nom (bt bn : String)
  | voltage_angles (bus sn : String)
  | cycles (sub : String) (j : Nat) (sn : String)
  deriving DecidableEq, Repr

/-- Modelled from the spec: the LP algebra of `pypsa/opt.py` (`LExpression`),
which is not among the analysed sources.  A linear expression is a sequence
of (coefficient, variable) terms together with a constant.  The field `vars`
models the source attribute `variables` (a reserved word here). -/
structure LExpression where
  vars : List (ℚ × LVar) := []
  constant : ℚ := 0
  deriving DecidableEq, Repr

namespace LExpression

/-- Modelled from the spec: expressions compose by concatenation of the term
lists and addition of the constants. -/
def add (e f : LExpression) : LExpression :=
  ⟨e.vars ++ f.vars, e.constant + f.constant⟩

/-- Modelled from the spec: scalar multiple of a linear expression. -/
def scale (c : ℚ) (e : LExpression) : LExpression :=
  ⟨e.vars.map (fun t => (c * t.1, t.2)), c * e.constant⟩

/-- The empty linear expression `LExpression()`. -/
def zero : LExpression := ⟨[], 0⟩

/-- Value of a linear expression under an assignment of the variables. -/
def eval (σ : LVar → ℚ) (e : LExpression) : ℚ :=
  (e.vars.map (fun t => t.1 * σ t.2)).sum + e.constant

end LExpression

/-- Constraint senses of the LP algebra. -/
inductive Sense where
  | le
  | eq
  | ge
  deriving DecidableEq, Repr

/-- Modelled from the spec: an `LConstraint` of `pypsa/opt.py` is a left-hand
expression, a sense and a right-hand expression. -/
structure LConstraint where
  lhs : LExpression := LExpression.zero
  sense : Sense := Sense.eq
  rhs : LExpression := LExpression.zero
  deriving DecidableEq, Repr

/-- The source frequently registers constraints as triples
`[[(coeff, var), ...], sense, rhs_constant]`; this helper builds the
corresponding `LConstraint`. -/
def listCon (terms : List (ℚ × LVar)) (s : Sense) (c : ℚ) : LConstraint :=
  ⟨⟨terms, 0⟩, s, ⟨[], c⟩⟩

/-! ## The network data model

Only the attributes read by the analysed functions are modelled. -/

structure Generator where
  name : String
  bus : String
  sign : ℚ := 1
  marginal_cost : ℚ := 0
  capital_cost : ℚ := 0
  p_nom : ℚ := 0
  p_nom_extendable : Bool := false
  deriving DecidableEq, Repr

structure Load where
  name : String
  bus : String
  sign : ℚ := -1
  deriving DecidableEq, Repr

structure StorageUnit where
  name : String
  bus : String
  sign : ℚ := 1
  marginal_cost : ℚ := 0
  capital_cost : ℚ := 0
  p_nom : ℚ := 0
  p_nom_extendable : Bool := false
  cyclic_state_of_charge : Bool := false
  state_of_charge_initial : ℚ := 0
  standing_loss : ℚ := 0
  efficiency_store : ℚ := 1
  efficiency_dispatch : ℚ := 1
  deriving DecidableEq, Repr

structure Store where
  name : String
  bus : String
  sign : ℚ := 1
  marginal_cost : ℚ := 0
  capital_cost : ℚ := 0
  e_nom : ℚ := 0
  e_nom_extendable : Bool := false
  deriving DecidableEq, Repr

structure Link where
  name : String
  bus0 : String
  bus1 : String
  efficiency : ℚ := 1
  marginal_cost : ℚ := 0
  capital_cost : ℚ := 0
  p_nom : ℚ := 0
  p_nom_extendable : Bool := false
  deriving DecidableEq, Repr

/-- A passive branch (line or transformer), identified by the
(type, name) pair of `network.passive_branches().index`. -/
structure PassiveBranch where
  branch_type : String
  name : String
  bus0 : String
  bus1 : String
  s_nom : ℚ := 0
  capital_cost : ℚ := 0
  x_pu : ℚ := 0
  r_pu : ℚ := 0
  s_nom_extendable : Bool := false
  sub_network : String := ""
  deriving DecidableEq, Repr

/-- A sub-network.  The topology collaborator (`pypsa/pf.py`, outside the
analysed sources) computes the slack bus, the ordered control buses
`buses_o`, the cycle matrix `C` (rows: branches, columns: cycles), the tree
matrix `T` (rows: branches, columns: buses) and the `PTDF` matrix (rows:
branches, columns: `buses_o`); they are carried here as given data. -/
structure SubNetwork where
  name : String
  carrier : String := "AC"
  slack_bus : String := ""
  buses : List String := []
  buses_o : List String := []
  branches : List PassiveBranch := []
  C : List (List ℚ) := []
  T : List (List ℚ) := []
  PTDF : List (List ℚ) := []
  nCycles : Nat := 0
  deriving DecidableEq, Repr

/-- The network.  Time series (`loads_t.p_set`, `storage_units_t.inflow`,
`storage_units_t.state_of_charge_set`) are functions of (snapshot, element
name); `all_snapshots` is the full time index of the network, of which the
solve window is a sub-list.  Snapshot weightings are natural numbers of
hours (see the module comment). -/
structure Network where
  now : String
  all_snapshots : List String
  snapshot_weightings : String → Nat
  buses : List String
  generators : List Generator
  loads : List Load
  storage_units : List StorageUnit
  stores : List Store
  links : List Link
  passive_branches : List PassiveBranch
  sub_networks : List SubNetwork
  loads_p_set : String → String → ℚ
  storage_inflow : String → String → ℚ
  state_of_charge_set : String → String → Option ℚ

/-- Carrier of the sub-network a passive branch belongs to
(`network.sub_networks.carrier[sub]`). -/
def Network.subCarrier (net : Network) (sub : String) : String :=
  ((net.sub_networks.find? (fun s => s.name == sub)).map (fun s => s.carrier)).getD ""

/-! ## Nodal balance (`define_nodal_balances`) -/

/-- The nodal balance expression `network._p_balance[bus,sn]` after
`define_nodal_balances`: contributions of links, generators, loads, storage
units and stores attached to the bus, in the iteration order of the source
(passive-branch terms are appended later, only by
`define_nodal_balance_constraints`). -/
def p_balance (net : Network) (bus sn : String) : LExpression where
  vars :=
    (net.links.flatMap fun cb =>
      (if cb.bus0 = bus then [((-1 : ℚ), LVar.link_p cb.name sn)] else [])
      ++ (if cb.bus1 = bus then [(cb.efficiency, LVar.link_p cb.name sn)] else []))
    ++ (net.generators.flatMap fun gen =>
        if gen.bus = bus then [(gen.sign, LVar.generator_p gen.name sn)] else [])
    ++ (net.storage_units.flatMap fun su =>
        if su.bus = bus then
          [(su.sign, LVar.storage_p_dispatch su.name sn),
           (-su.sign, LVar.storage_p_store su.name sn)]
        else [])
    ++ (net.stores.flatMap fun store =>
        if store.bus = bus then [(store.sign, LVar.store_p store.name sn)] else [])
  constant :=
    ((net.loads.filter fun load => load.bus = bus).map
      fun load => load.sign * net.loads_p_set sn load.name).sum

/-- The passive-branch terms that `define_nodal_balance_constraints` appends
to `network._p_balance[bus,sn]` before registering the per-bus balance. -/
def branch_balance_terms (net : Network) (bus sn : String) : List (ℚ × LVar) :=
  net.passive_branches.flatMap fun b =>
    (if b.bus0 = bus then [((-1 : ℚ), LVar.passive_branch_p b.branch_type b.name sn)] else [])
    ++ (if b.bus1 = bus then [((1 : ℚ), LVar.passive_branch_p b.branch_type b.name sn)] else [])

/-- `define_nodal_balance_constraints`: one equality `p_balance[bus,sn] = 0`
per bus and snapshot, with the passive-branch flow terms appended. -/
def define_nodal_balance_constraints (net : Network) (snapshots : List String) :
    List ((String × String) × LConstraint) :=
  net.buses.flatMap fun bus => snapshots.map fun sn =>
    ((bus, sn),
     { lhs := ⟨(p_balance net bus sn).vars ++ branch_balance_terms net bus sn,
               (p_balance net bus sn).constant⟩
       sense := Sense.eq
       rhs := LExpression.zero })

/-- `define_sub_network_balance_constraints`: one equality per sub-network
and snapshot, summing `p_balance` over the sub-network's buses (variable
lists concatenated, constants added). -/
def define_sub_network_balance_constraints (net : Network) (snapshots : List String) :
    List ((String × String) × LConstraint) :=
  net.sub_networks.flatMap fun sub => snapshots.map fun sn =>
    ((sub.name, sn),
     { lhs := ⟨sub.buses.flatMap fun bus => (p_balance net bus sn).vars,
               (sub.buses.map fun bus => (p_balance net bus sn).constant).sum⟩
       sense := Sense.eq
       rhs := LExpression.zero })

/-! ## Storage state of charge (`define_storage_variables_constraints`) -/

/-- Python indexing `snapshots[i-1]` as used by the SOC recurrence: at
`i = 0` this is `snapshots[-1]`, the last snapshot of the solve window. -/
def pyPrev (snapshots : List String) (i : Nat) : String :=
  if i = 0 then snapshots.getLastD "" else snapshots.getD (i - 1) ""

/-- The SOC recurrence constraint for storage unit `su` at position `i`
(snapshot `sn`) of the solve window, before the spill terms are appended:
`soc[su,sn] = [[], "==", 0.]` manipulated exactly as in the source. -/
def socConstraintAt (net : Network) (snapshots : List String) (su : StorageUnit)
    (i : Nat) (sn : String) : LConstraint :=
  let elapsed_hours := net.snapshot_weightings sn
  let decay : ℚ := (1 - su.standing_loss) ^ elapsed_hours
  let prev : List (ℚ × LVar) × ℚ :=
    if i = 0 ∧ su.cyclic_state_of_charge = false then
      ([], -(decay * su.state_of_charge_initial))
    else
      ([(decay, LVar.state_of_charge su.name (pyPrev snapshots i))], 0)
  let socTerm : List (ℚ × LVar) × ℚ :=
    match net.state_of_charge_set sn su.name with
    | none => ([((-1 : ℚ), LVar.state_of_charge su.name sn)], 0)
    | some v => ([], v)
  ⟨⟨prev.1 ++ socTerm.1
      ++ [(su.efficiency_store * (elapsed_hours : ℚ), LVar.storage_p_store su.name sn),
          (-(1 / su.efficiency_dispatch) * (elapsed_hours : ℚ), LVar.storage_p_dispatch su.name sn)],
    0⟩,
   Sense.eq,
   ⟨[], prev.2 + socTerm.2 - net.storage_inflow sn su.name * (elapsed_hours : ℚ)⟩⟩

/-- The keys of the spill variables: storage units with positive inflow at
some snapshot of the network time index (`spill_sus`), paired with the solve
window snapshots at which their inflow is positive. -/
def spill_index (net : Network) (snapshots : List String) : List (String × String) :=
  (net.storage_units.filter fun su =>
      net.all_snapshots.any fun sn => decide (0 < net.storage_inflow sn su.name)).flatMap
    fun su =>
      (snapshots.filter fun sn => decide (0 < net.storage_inflow sn su.name)).map
        fun sn => (su.name, sn)

/-- In the source's spill loop, `elapsed_hours` is the leftover value of the
loop variable of the preceding double loop, i.e. the weighting of the LAST
snapshot of the solve window — not the weighting of the snapshot of the
spill variable.  (Whenever `spill_index` is non-empty the double loop has
run, so the leftover value is defined and the fallback 0 is never used.) -/
def lastElapsed (net : Network) (snapshots : List String) : Nat :=
  match snapshots.getLast? with
  | some sn => net.snapshot_weightings sn
  | none => 0

/-- The spill loop: appends the term
`(-1.*elapsed_hours, storage_p_spill[su,sn])` to a SOC constraint whose key
belongs to `spill_index`, with the stale `elapsed_hours` value
(`lastElapsed`). -/
def spill_append (net : Network) (snapshots : List String)
    (kc : (String × String) × LConstraint) : (String × String) × LConstraint :=
  if (spill_index net snapshots).contains kc.1 then
    (kc.1, ⟨⟨kc.2.lhs.vars
               ++ [(-(1 : ℚ) * (lastElapsed net snapshots : ℚ),
                    LVar.storage_p_spill kc.1.1 kc.1.2)],
             kc.2.lhs.constant⟩, kc.2.sense, kc.2.rhs⟩)
  else kc

/-- The full `state_of_charge_constraint` group: the SOC recurrences with the
spill terms appended to the entries whose key belongs to `spill_index`. -/
def state_of_charge_constraints (net : Network) (snapshots : List String) :
    List ((String × String) × LConstraint) :=
  (net.storage_units.flatMap fun su => snapshots.enum.map fun p =>
      ((su.name, p.2), socConstraintAt net snapshots su p.1 p.2)).map
    (spill_append net snapshots)

/-- The `state_of_charge_constraint_fixed` group: where
`state_of_charge_set` is non-null the SOC variable is pinned to it. -/
def fixed_soc_constraints (net : Network) (snapshots : List String) :
    List ((String × String) × LConstraint) :=
  net.storage_units.flatMap fun su => snapshots.filterMap fun sn =>
    match net.state_of_charge_set sn su.name with
    | none => none
    | some v => some ((su.name, sn), listCon [((1 : ℚ), LVar.state_of_charge su.name sn)] Sense.eq v)

/-! ## Passive branch flow limits (`define_passive_branch_constraints`) -/

/-- The `flow_upper` group: `p ≤ s_nom` for fixed branches,
`p - passive_branch_s_nom ≤ 0` for extendable ones. -/
def passive_branch_flow_upper (net : Network) (snapshots : List String) :
    List ((String × String × String) × LConstraint) :=
  net.passive_branches.flatMap fun b => snapshots.map fun sn =>
    ((b.branch_type, b.name, sn),
     if b.s_nom_extendable then
       listCon [((1 : ℚ), LVar.passive_branch_p b.branch_type b.name sn),
                ((-1 : ℚ), LVar.passive_branch_s_nom b.branch_type b.name)] Sense.le 0
     else
       listCon [((1 : ℚ), LVar.passive_branch_p b.branch_type b.name sn)] Sense.le b.s_nom)

/-- The `flow_lower` group: `p ≥ -s_nom` for fixed branches,
`p + passive_branch_s_nom ≥ 0` for extendable ones. -/
def passive_branch_flow_lower (net : Network) (snapshots : List String) :
    List ((String × String × String) × LConstraint) :=
  net.passive_branches.flatMap fun b => snapshots.map fun sn =>
    ((b.branch_type, b.name, sn),
     if b.s_nom_extendable then
       listCon [((1 : ℚ), LVar.passive_branch_p b.branch_type b.name sn),
                ((1 : ℚ), LVar.passive_branch_s_nom b.branch_type b.name)] Sense.ge 0
     else
       listCon [((1 : ℚ), LVar.passive_branch_p b.branch_type b.name sn)] Sense.ge (-b.s_nom))

/-! ## Passive branch flows, one definition per formulation -/

/-- The `slack_angle` constraints of the "angles" formulation: the voltage
angle of every sub-network's slack bus is pinned to zero. -/
def slack_angle_constraints (net : Network) (snapshots : List String) :
    List ((String × String) × LConstraint) :=
  net.sub_networks.flatMap fun sub => snapshots.map fun sn =>
    ((sub.name, sn), listCon [((1 : ℚ), LVar.voltage_angles sub.slack_bus sn)] Sense.eq 0)

/-- The flow definitions of `define_passive_branch_flows_with_angles`:
`y·θ[bus0] - y·θ[bus1] - p[branch] = 0` with admittance
`y = 1/r_pu` on DC sub-networks and `y = 1/x_pu` otherwise. -/
def angles_flows (net : Network) (snapshots : List String) :
    List ((String × String × String) × LConstraint) :=
  net.passive_branches.flatMap fun b =>
    let y : ℚ := 1 / (if net.subCarrier b.sub_network = "DC" then b.r_pu else b.x_pu)
    snapshots.map fun sn =>
      ((b.branch_type, b.name, sn),
       { lhs := ⟨[(y, LVar.voltage_angles b.bus0 sn), (-y, LVar.voltage_angles b.bus1 sn),
                  ((-1 : ℚ), LVar.passive_branch_p b.branch_type b.name sn)], 0⟩
         sense := Sense.eq
         rhs := LExpression.zero })

/-- The flow definitions of `define_passive_branch_flows_with_PTDF`: branch
flow equals the PTDF-weighted sum of the nodal balance expressions over the
sub-network's ordered control buses, with entries below `ptdf_tolerance`
zeroed out. -/
def ptdf_flows (net : Network) (snapshots : List String) (ptdf_tolerance : ℚ) :
    List ((String × String × String) × LConstraint) :=
  net.sub_networks.flatMap fun sub =>
    sub.branches.enum.flatMap fun p =>
      snapshots.map fun sn =>
        let killed : Nat → ℚ := fun j =>
          let v := (sub.PTDF.getD p.1 []).getD j 0
          if |v| < ptdf_tolerance then 0 else v
        ((p.2.branch_type, p.2.name, sn),
         { lhs :=
             (((List.range sub.buses_o.length).filter fun j => decide (killed j ≠ 0)).map
               fun j => LExpression.scale (killed j)
                 (p_balance net (sub.buses_o.getD j "") sn)).foldl
               LExpression.add LExpression.zero
           sense := Sense.eq
           rhs := ⟨[((1 : ℚ), LVar.passive_branch_p p.2.branch_type p.2.name sn)], 0⟩ })

/-- The flow definitions of `define_passive_branch_flows_with_cycles`:
branch flow equals its cycle-variable combination plus the tree-weighted
nodal balance expressions of the sub-network's buses. -/
def cycles_flows (net : Network) (snapshots : List String) :
    List ((String × String × String) × LConstraint) :=
  net.sub_networks.flatMap fun sub =>
    sub.branches.enum.flatMap fun p =>
      snapshots.map fun snapshot =>
        let cycleTerms : List (ℚ × LVar) :=
          ((List.range sub.nCycles).filter fun j =>
              decide ((sub.C.getD p.1 []).getD j 0 ≠ 0)).map
            fun j => ((sub.C.getD p.1 []).getD j 0, LVar.cycles sub.name j snapshot)
        ((p.2.branch_type, p.2.name, snapshot),
         { lhs := LExpression.add ⟨cycleTerms, 0⟩
             ((((List.range sub.buses.length).filter fun j =>
                  decide ((sub.T.getD p.1 []).getD j 0 ≠ 0)).map
               fun j => LExpression.scale ((sub.T.getD p.1 []).getD j 0)
                 (p_balance net (sub.buses.getD j "") snapshot)).foldl
               LExpression.add LExpression.zero)
           sense := Sense.eq
           rhs := ⟨[((1 : ℚ), LVar.passive_branch_p p.2.branch_type p.2.name snapshot)], 0⟩ })

/-- The index of the auxiliary `cycles` variables declared by
`define_passive_branch_flows_with_cycles`. -/
def cycle_index (net : Network) : List (String × Nat) :=
  net.sub_networks.flatMap fun sub => (List.range sub.nCycles).map fun i => (sub.name, i)

/-- The `cycle_constraints` group of `define_passive_branch_flows_with_cycles`
(Kirchhoff voltage law): for each sub-network, cycle-basis column `j` and
snapshot, `Σᵢ impedance[i]·C[i,j]·p[branchᵢ] = 0` over the branches with a
nonzero entry in column `j`, with impedance `r_pu` on DC sub-networks and
`x_pu` otherwise. -/
def cycles_cycle_constraints (net : Network) (snapshots : List String) :
    List ((String × Nat × String) × LConstraint) :=
  net.sub_networks.flatMap fun sub =>
    (List.range sub.nCycles).flatMap fun j =>
      snapshots.map fun snapshot =>
        ((sub.name, j, snapshot),
         { lhs := ⟨sub.branches.enum.flatMap fun p =>
             let cij := (sub.C.getD p.1 []).getD j 0
             if cij = 0 then []
             else [((if sub.carrier = "DC" then p.2.r_pu else p.2.x_pu) * cij,
                    LVar.passive_branch_p p.2.branch_type p.2.name snapshot)], 0⟩
           sense := Sense.eq
           rhs := LExpression.zero })

/-- The `cycle_constraints` group of
`define_passive_branch_flows_with_kirchhoff`, translated from its own loop
in the source (lines 620-638). -/
def kirchhoff_cycle_constraints (net : Network) (snapshots : List String) :
    List ((String × Nat × String) × LConstraint) :=
  net.sub_networks.flatMap fun sub =>
    (List.range sub.nCycles).flatMap fun j =>
      snapshots.map fun snapshot =>
        ((sub.name, j, snapshot),
         { lhs := ⟨sub.branches.enum.flatMap fun p =>
             let cij := (sub.C.getD p.1 []).getD j 0
             if cij = 0 then []
             else [((if sub.carrier = "DC" then p.2.r_pu else p.2.x_pu) * cij,
                    LVar.passive_branch_p p.2.branch_type p.2.name snapshot)], 0⟩
           sense := Sense.eq
           rhs := LExpression.zero })

/-! ## Objective (`define_linear_objective`) -/

/-- The linear objective: marginal costs weighted by the snapshot
weightings for every generator, storage unit (dispatch), store and link,
plus capital costs of the extendable capacity variables, minus the constant
capital cost of the existing capacities. -/
def define_linear_objective (net : Network) (snapshots : List String) : LExpression where
  vars :=
    (net.generators.flatMap fun gen => snapshots.map fun sn =>
      (gen.marginal_cost * (net.snapshot_weightings sn : ℚ), LVar.generator_p gen.name sn))
    ++ (net.storage_units.flatMap fun su => snapshots.map fun sn =>
      (su.marginal_cost * (net.snapshot_weightings sn : ℚ), LVar.storage_p_dispatch su.name sn))
    ++ (net.stores.flatMap fun store => snapshots.map fun sn =>
      (store.marginal_cost * (net.snapshot_weightings sn : ℚ), LVar.store_p store.name sn))
    ++ (net.links.flatMap fun link => snapshots.map fun sn =>
      (link.marginal_cost * (net.snapshot_weightings sn : ℚ), LVar.link_p link.name sn))
    ++ ((net.generators.filter fun gen => gen.p_nom_extendable).map fun gen =>
      (gen.capital_cost, LVar.generator_p_nom gen.name))
    ++ ((net.storage_units.filter fun su => su.p_nom_extendable).map fun su =>
      (su.capital_cost, LVar.storage_p_nom su.name))
    ++ ((net.stores.filter fun store => store.e_nom_extendable).map fun store =>
      (store.capital_cost, LVar.store_e_nom store.name))
    ++ ((net.passive_branches.filter fun b => b.s_nom_extendable).map fun b =>
      (b.capital_cost, LVar.passive_branch_s_nom b.branch_type b.name))
    ++ ((net.links.filter fun link => link.p_nom_extendable).map fun link =>
      (link.capital_cost, LVar.link_p_nom link.name))
  constant :=
    -(((net.generators.filter fun gen => gen.p_nom_extendable).map fun gen =>
        gen.capital_cost * gen.p_nom).sum)
    - ((net.storage_units.filter fun su => su.p_nom_extendable).map fun su =>
        su.capital_cost * su.p_nom).sum
    - ((net.stores.filter fun store => store.e_nom_extendable).map fun store =>
        store.capital_cost * store.e_nom).sum
    - ((net.passive_branches.filter fun b => b.s_nom_extendable).map fun b =>
        b.capital_cost * b.s_nom).sum
    - ((net.links.filter fun link => link.p_nom_extendable).map fun link =>
        link.capital_cost * link.p_nom).sum

/-- The marginal-cost part of the objective as a plain arithmetic sum over
the network, under an assignment of the variables. -/
def marginal_cost_total (net : Network) (snapshots : List String) (σ : LVar → ℚ) : ℚ :=
  (net.generators.map fun gen =>
    (snapshots.map fun sn => gen.marginal_cost * (net.snapshot_weightings sn : ℚ)
      * σ (LVar.generator_p gen.name sn)).sum).sum
  + (net.storage_units.map fun su =>
    (snapshots.map fun sn => su.marginal_cost * (net.snapshot_weightings sn : ℚ)
      * σ (LVar.storage_p_dispatch su.name sn)).sum).sum
  + (net.stores.map fun store =>
    (snapshots.map fun sn => store.marginal_cost * (net.snapshot_weightings sn : ℚ)
      * σ (LVar.store_p store.name sn)).sum).sum
  + (net.links.map fun link =>
    (snapshots.map fun sn => link.marginal_cost * (net.snapshot_weightings sn : ℚ)
      * σ (LVar.link_p link.name sn)).sum).sum

/-- The capital cost of the chosen nominal capacities of all extendable
elements, under an assignment of the variables. -/
def capital_cost_of_variables (net : Network) (σ : LVar → ℚ) : ℚ :=
  ((net.generators.filter fun gen => gen.p_nom_extendable).map fun gen =>
    gen.capital_cost * σ (LVar.generator_p_nom gen.name)).sum
  + ((net.storage_units.filter fun su => su.p_nom_extendable).map fun su =>
    su.capital_cost * σ (LVar.storage_p_nom su.name)).sum
  + ((net.stores.filter fun store => store.e_nom_extendable).map fun store =>
    store.capital_cost * σ (LVar.store_e_nom store.name)).sum
  + ((net.passive_branches.filter fun b => b.s_nom_extendable).map fun b =>
    b.capital_cost * σ (LVar.passive_branch_s_nom b.branch_type b.name)).sum
  + ((net.links.filter fun link => link.p_nom_extendable).map fun link =>
    link.capital_cost * σ (LVar.link_p_nom link.name)).sum

/-- The capital cost of the existing nominal capacities of all extendable
elements. -/
def capital_cost_of_existing (net : Network) : ℚ :=
  ((net.generators.filter fun gen => gen.p_nom_extendable).map fun gen =>
    gen.capital_cost * gen.p_nom).sum
  + ((net.storage_units.filter fun su => su.p_nom_extendable).map fun su =>
    su.capital_cost * su.p_nom).sum
  + ((net.stores.filter fun store => store.e_nom_extendable).map fun store =>
    store.capital_cost * store.e_nom).sum
  + ((net.passive_branches.filter fun b => b.s_nom_extendable).map fun b =>
    b.capital_cost * b.s_nom).sum
  + ((net.links.filter fun link => link.p_nom_extendable).map fun link =>
    link.capital_cost * link.p_nom).sum

/-! ## The model built by `network_lopf` -/

/-- The pyomo model, restricted to the constraint groups, variable
declarations and objective that this development analyses.  Each group is an
association list keyed by the source's index tuples; `cycles_vars = some idx`
records that the auxiliary `cycles` variables were declared with index
`idx`. -/
structure Model where
  slack_angle : List ((String × String) × LConstraint) := []
  passive_branch_p_def : List ((String × String × String) × LConstraint) := []
  cycle_constraints : List ((String × Nat × String) × LConstraint) := []
  cycles_vars : Option (List (String × Nat)) := none
  flow_upper : List ((String × String × String) × LConstraint) := []
  flow_lower : List ((String × String × String) × LConstraint) := []
  power_balance : List ((String × String) × LConstraint) := []
  sub_network_balance : List ((String × String) × LConstraint) := []
  state_of_charge_constraint : List ((String × String) × LConstraint) := []
  state_of_charge_constraint_fixed : List ((String × String) × LConstraint) := []
  objective : LExpression := LExpression.zero
  deriving DecidableEq, Repr

/-- Observation: every per-snapshot constraint key of the model carries the
given snapshot. -/
def Model.allSnapshotKeys (m : Model) (s : String) : Bool :=
  m.power_balance.all (fun kc => kc.1.2 == s)
  && m.sub_network_balance.all (fun kc => kc.1.2 == s)
  && m.state_of_charge_constraint.all (fun kc => kc.1.2 == s)
  && m.state_of_charge_constraint_fixed.all (fun kc => kc.1.2 == s)
  && m.slack_angle.all (fun kc => kc.1.2 == s)
  && m.flow_upper.all (fun kc => kc.1.2.2 == s)
  && m.flow_lower.all (fun kc => kc.1.2.2 == s)
  && m.passive_branch_p_def.all (fun kc => kc.1.2.2 == s)
  && m.cycle_constraints.all (fun kc => kc.1.2.2 == s)

/-- The model-building part of `network_lopf` (lines 1029-1060): default the
snapshots to `[network.now]`, dispatch the flow formulation through
`define_passive_branch_flows` (whose `if`/`elif` chain silently does nothing
for an unrecognized formulation), add nodal balance constraints for
"angles"/"kirchhoff" and sub-network balance constraints for
"ptdf"/"cycles", and attach the objective.  This function describes the
model of a build that runs to completion; the AttributeError that an
unrecognized formulation provokes inside
`define_passive_branch_constraints` on a network with passive branches is
made explicit by `network_lopf_build` below. -/
def network_lopf_model (net : Network) (snapshots_arg : Option (List String))
    (formulation : String) (ptdf_tolerance : ℚ) : Model :=
  let snapshots := match snapshots_arg with
    | none => [net.now]
    | some s => s
  { slack_angle := if formulation = "angles" then slack_angle_constraints net snapshots else []
    passive_branch_p_def :=
      if formulation = "angles" then angles_flows net snapshots
      else if formulation = "ptdf" then ptdf_flows net snapshots ptdf_tolerance
      else if formulation = "cycles" then cycles_flows net snapshots
      else []
    cycle_constraints :=
      if formulation = "cycles" then cycles_cycle_constraints net snapshots
      else if formulation = "kirchhoff" then kirchhoff_cycle_constraints net snapshots
      else []
    cycles_vars := if formulation = "cycles" then some (cycle_index net) else none
    flow_upper := passive_branch_flow_upper net snapshots
    flow_lower := passive_branch_flow_lower net snapshots
    power_balance :=
      if formulation = "angles" ∨ formulation = "kirchhoff" then
        define_nodal_balance_constraints net snapshots
      else []
    sub_network_balance :=
      if formulation = "ptdf" ∨ formulation = "cycles" then
        define_sub_network_balance_constraints net snapshots
      else []
    state_of_charge_constraint := state_of_charge_constraints net snapshots
    state_of_charge_constraint_fixed := fixed_soc_constraints net snapshots
    objective := define_linear_objective net snapshots }

/-- `define_passive_branch_flows` declares the pyomo variable
`network.model.passive_branch_p` in each of its four recognized branches
(source lines 473, 498, 549 and 617) and declares nothing for any other
formulation. -/
def passive_branch_p_declared (formulation : String) : Bool :=
  formulation == "angles" || formulation == "ptdf" || formulation == "cycles"
    || formulation == "kirchhoff"

/-- `define_passive_branch_constraints` with the pyomo attribute lookup made
explicit: its comprehensions (source lines 646 and 651) evaluate
`network.model.passive_branch_p` once per (branch, snapshot) pair, so when
that variable was never declared and at least one such pair exists the
lookup raises an AttributeError; otherwise the flow-limit groups are
built. -/
def define_passive_branch_constraints_checked (net : Network) (snapshots : List String)
    (declared : Bool) :
    Except String (List ((String × String × String) × LConstraint)
      × List ((String × String × String) × LConstraint)) :=
  if declared = false ∧ net.passive_branches ≠ [] ∧ snapshots ≠ [] then
    Except.error "AttributeError: passive_branch_p"
  else
    Except.ok (passive_branch_flow_upper net snapshots, passive_branch_flow_lower net snapshots)

/-- The build section of `network_lopf` with its error behaviour made
explicit.  The formulation dispatch itself raises nothing for a formulation
outside the recognized set, but then `define_passive_branch_constraints`
references the undeclared `passive_branch_p` variable: on a network with a
passive branch and a nonempty window the build fails midway with an
AttributeError; in every other case it completes and produces
`network_lopf_model`. -/
def network_lopf_build (net : Network) (snapshots_arg : Option (List String))
    (formulation : String) (ptdf_tolerance : ℚ) : Except String Model :=
  let snapshots := match snapshots_arg with
    | none => [net.now]
    | some s => s
  match define_passive_branch_constraints_checked net snapshots
      (passive_branch_p_declared formulation) with
  | Except.error e => Except.error e
  | Except.ok _ => Except.ok (network_lopf_model net snapshots_arg formulation ptdf_tolerance)

/-! ## Post-solve handling and result extraction -/

/-- Outcome of the status check after the solver call in `network_lopf`. -/
inductive SolveOutcome where
  | extracted (suboptimal_warning : Bool)
  | failed (status termination_condition : String)
  deriving DecidableEq, Repr

/-- The post-solve dispatch of `network_lopf` (lines 1086-1093):
`extract_optimisation_results` runs for status "ok" with termination
"optimal", and for status "warning" with termination "other" (with a
sub-optimality warning); every other pair is reported as a failure. -/
def network_lopf_post_solve (status termination_condition : String) : SolveOutcome :=
  if status = "ok" ∧ termination_condition = "optimal" then SolveOutcome.extracted false
  else if status = "warning" ∧ termination_condition = "other" then SolveOutcome.extracted true
  else SolveOutcome.failed status termination_condition

/-- The marginal-price part of `extract_optimisation_results` (lines
925-942): only when the network has buses and the formulation is "angles"
is each `power_balance` constraint paired with its dual value and written to
`buses_t.marginal_price`; the other recognized formulations instead
reconstruct voltage angles and never write marginal prices. -/
def extract_marginal_price (net : Network) (model : Model) (formulation : String)
    (dual : LConstraint → ℚ) : Option (List ((String × String) × ℚ)) :=
  if net.buses ≠ [] ∧ formulation = "angles" then
    some (model.power_balance.map fun kc => (kc.1, dual kc.2))
  else none

/-! ## Concrete example networks used to evaluate the development -/

/-- A one-bus network with an extendable generator and a load, no passive
branches. -/
def net1 : Network where
  now := "t0"
  all_snapshots := ["t0"]
  snapshot_weightings := fun _ => 1
  buses := ["b1"]
  generators := [{ name := "g1", bus := "b1", marginal_cost := 10, capital_cost := 3,
                   p_nom := 5, p_nom_extendable := true }]
  loads := [{ name := "l1", bus := "b1" }]
  storage_units := []
  stores := []
  links := []
  passive_branches := []
  sub_networks := [{ name := "0", buses := ["b1"] }]
  loads_p_set := fun _ _ => 100
  storage_inflow := fun _ _ => 0
  state_of_charge_set := fun _ _ => none

/-- A non-cyclic storage unit with an initial state of charge and standing
losses. -/
def su1 : StorageUnit where
  name := "s1"
  bus := "b1"
  state_of_charge_initial := 10
  standing_loss := 1/2

/-- A cyclic storage unit. -/
def su2 : StorageUnit where
  name := "s2"
  bus := "b1"
  cyclic_state_of_charge := true

/-- A one-bus network with a non-cyclic and a cyclic storage unit over a
two-snapshot window. -/
def net2 : Network where
  now := "t0"
  all_snapshots := ["t0", "t1"]
  snapshot_weightings := fun _ => 1
  buses := ["b1"]
  generators := []
  loads := []
  storage_units := [su1, su2]
  stores := []
  links := []
  passive_branches := []
  sub_networks := [{ name := "0", buses := ["b1"] }]
  loads_p_set := fun _ _ => 0
  storage_inflow := fun _ _ => 0
  state_of_charge_set := fun _ _ => none

/-- The storage unit of `net3`. -/
def su3 : StorageUnit where
  name := "s"
  bus := "b1"

/-- A network with heterogeneous snapshot weightings (1 hour at "a", 2 hours
at "b") and one storage unit with inflow only at snapshot "a", so that a
spill variable exists exactly at ("s", "a"). -/
def net3 : Network where
  now := "a"
  all_snapshots := ["a", "b"]
  snapshot_weightings := fun sn => if sn = "b" then 2 else 1
  buses := ["b1"]
  generators := []
  loads := []
  storage_units := [su3]
  stores := []
  links := []
  passive_branches := []
  sub_networks := [{ name := "0", buses := ["b1"] }]
  loads_p_set := fun _ _ => 0
  storage_inflow := fun sn _ => if sn = "a" then 5 else 0
  state_of_charge_set := fun _ _ => none

/-- The three lines of the example ring `net4` (the second extendable). -/
def ringBranches : List PassiveBranch :=
  [{ branch_type := "Line", name := "L1", bus0 := "b1", bus1 := "b2",
     s_nom := 150, x_pu := 1, sub_network := "0" },
   { branch_type := "Line", name := "L2", bus0 := "b2", bus1 := "b3",
     s_nom := 100, x_pu := 2, s_nom_extendable := true, sub_network := "0" },
   { branch_type := "Line", name := "L3", bus0 := "b1", bus1 := "b3",
     s_nom := 120, x_pu := 3, sub_network := "0" }]

/-- The single AC sub-network of `net4`, with one cycle through its three
branches. -/
def sub4 : SubNetwork where
  name := "0"
  carrier := "AC"
  slack_bus := "b1"
  buses := ["b1", "b2", "b3"]
  buses_o := ["b1", "b2", "b3"]
  branches := ringBranches
  C := [[1], [1], [-1]]
  T := [[1, 0, 0], [0, 1, 0], [0, 0, 1]]
  PTDF := [[0, 1, 0], [0, 0, 1], [0, 0, 0]]
  nCycles := 1

/-- A three-bus ring: three lines (one extendable) forming one cycle in one
AC sub-network. -/
def net4 : Network where
  now := "t0"
  all_snapshots := ["t0"]
  snapshot_weightings := fun _ => 1
  buses := ["b1", "b2", "b3"]
  generators := []
  loads := []
  storage_units := []
  stores := []
  links := []
  passive_branches := ringBranches
  sub_networks := [sub4]
  loads_p_set := fun _ _ => 0
  storage_inflow := fun _ _ => 0
  state_of_charge_set := fun _ _ => none

/-! ## Helper lemmas -/

/-- The index lists built by the declarators — a flat map of a key function
over an element list and the snapshot list — contain no duplicate keys when
the snapshots are distinct, the key function is injective in the snapshot,
and different elements never share a key. -/
theorem nodup_flatMap_product {α β γ : Type _} {l : List α} {m : List β} (key : α → β → γ)
    (hm : m.Nodup)
    (hinj : ∀ a ∈ l, ∀ b ∈ m, ∀ b2 ∈ m, key a b = key a b2 → b = b2)
    (hdisj : l.Pairwise fun a a2 => ∀ b ∈ m, ∀ b2 ∈ m, key a b ≠ key a2 b2) :
    (l.flatMap fun a => m.map (key a)).Nodup := by
  rw [List.nodup_flatMap]
  refine ⟨fun a ha => hm.map_on fun b hb b2 hb2 h => hinj a ha b hb b2 hb2 h, ?_⟩
  refine hdisj.imp ?_
  intro a a2 h x hx hx2
  obtain ⟨b, hb, rfl⟩ := List.mem_map.mp hx
  obtain ⟨b2, hb2, heq⟩ := List.mem_map.mp hx2
  exact h b hb b2 hb2 heq.symm

/-- In a duplicate-free list, a member is counted exactly once. -/
theorem countP_eq_one_of_nodup_mem {α : Type _} [DecidableEq α] {l : List α} {a : α}
    (h : l.Nodup) (ha : a ∈ l) : l.countP (fun x => decide (x = a)) = 1 := by
  induction l with
  | nil => cases ha
  | cons b t ih =>
    rw [List.countP_cons]
    by_cases hba : b = a
    · subst hba
      have ht : t.countP (fun x => decide (x = b)) = 0 :=
        List.countP_eq_zero.mpr fun x hx => by
          simp only [decide_eq_true_eq]
          exact fun hxa => (List.nodup_cons.mp h).1 (hxa ▸ hx)
      simp [ht]
    · have ha2 : a ∈ t := by
        rcases List.mem_cons.mp ha with h1 | h2
        · exact absurd h1.symm hba
        · exact h2
      rw [ih (List.nodup_cons.mp h).2 ha2]
      simp [hba]

/-- Summing over a flat map is summing the per-element sums. -/
theorem sum_flatMap_eq {α : Type _} (l : List α) (f : α → List ℚ) :
    (l.flatMap f).sum = (l.map fun a => (f a).sum).sum := by
  induction l with
  | nil => simp
  | cons a t ih => simp [List.flatMap_cons, List.sum_append, ih]

/-! ## Claims -/

/-- C8: after the solver call in `network_lopf`, result extraction is
invoked exactly for status "ok" with termination condition "optimal"
(without warning) and for status "warning" with termination condition
"other" (with a sub-optimality warning); every other pair is reported as a
failure and extraction is skipped. -/
theorem C8_solver_status_dispatch (status tc : String) :
    (network_lopf_post_solve status tc = SolveOutcome.extracted false ↔
      (status = "ok" ∧ tc = "optimal"))
    ∧ (network_lopf_post_solve status tc = SolveOutcome.extracted true ↔
      (status = "warning" ∧ tc = "other"))
    ∧ (network_lopf_post_solve status tc = SolveOutcome.failed status tc ↔
      (¬(status = "ok" ∧ tc = "optimal") ∧ ¬(status = "warning" ∧ tc = "other"))) := by
  unfold network_lopf_post_solve
  by_cases h1 : status = "ok" ∧ tc = "optimal"
  · obtain ⟨rfl, rfl⟩ := h1
    simp
  · by_cases h2 : status = "warning" ∧ tc = "other"
    · obtain ⟨rfl, rfl⟩ := h2
      simp
    · simp [h1, h2]

/-- C7 (counterexample): calling the builder with the unrecognized
formulation "foo" never raises an UnsupportedFormulation error before the
build.  On branch-free `net1` the build completes without any error at all —
the model is produced (its objective carries the generator's marginal-cost
terms) but silently lacks the flow definitions and every balance constraint,
while the same network with formulation "angles" does get per-bus balance
constraints.  On `net4`, which has passive branches, the build instead fails
midway with an AttributeError on the undeclared `passive_branch_p` — still
not the claimed error, and not before the build. -/
theorem C7_counterexample :
    network_lopf_build net1 (some ["t0"]) "foo" 0
      = Except.ok (network_lopf_model net1 (some ["t0"]) "foo" 0)
    ∧ (network_lopf_model net1 (some ["t0"]) "foo" 0).power_balance = []
    ∧ (network_lopf_model net1 (some ["t0"]) "foo" 0).sub_network_balance = []
    ∧ (network_lopf_model net1 (some ["t0"]) "foo" 0).passive_branch_p_def = []
    ∧ (network_lopf_model net1 (some ["t0"]) "foo" 0).cycle_constraints = []
    ∧ (network_lopf_model net1 (some ["t0"]) "foo" 0).objective.vars ≠ []
    ∧ (network_lopf_model net1 (some ["t0"]) "angles" 0).power_balance ≠ []
    ∧ network_lopf_build net4 (some ["t0"]) "foo" 0
        = Except.error "AttributeError: passive_branch_p" :=
  ⟨rfl, by decide, by decide, by decide, by decide, by decide, by decide, rfl⟩

/-- C7 (amended): there is no UnsupportedFormulation check: the `if`/`elif`
chain of `define_passive_branch_flows` raises nothing and silently declares
and defines no passive-branch flows for an unrecognized formulation.  On a
network without passive branches (or with an empty window) the whole build
then completes without any error, with no flow definitions, no cycle
constraints and no balance constraints of either kind, while the remaining
model (flow limits, storage constraints, objective) is still built; on a
network with a passive branch and a nonempty window the build instead fails
midway, inside `define_passive_branch_constraints`, with an AttributeError
on the undeclared `passive_branch_p` variable. -/
theorem C7_unknown_formulation_not_rejected (net : Network) (snapshots : List String)
    (formulation : String) (tol : ℚ)
    (h : formulation ∉ (["angles", "ptdf", "cycles", "kirchhoff"] : List String)) :
    (net.passive_branches = [] ∨ snapshots = [] →
      network_lopf_build net (some snapshots) formulation tol
        = Except.ok (network_lopf_model net (some snapshots) formulation tol)
      ∧ (network_lopf_model net (some snapshots) formulation tol).power_balance = []
      ∧ (network_lopf_model net (some snapshots) formulation tol).sub_network_balance = []
      ∧ (network_lopf_model net (some snapshots) formulation tol).passive_branch_p_def = []
      ∧ (network_lopf_model net (some snapshots) formulation tol).cycle_constraints = []
      ∧ (network_lopf_model net (some snapshots) formulation tol).cycles_vars = none
      ∧ (network_lopf_model net (some snapshots) formulation tol).slack_angle = []
      ∧ (network_lopf_model net (some snapshots) formulation tol).flow_upper
          = passive_branch_flow_upper net snapshots
      ∧ (network_lopf_model net (some snapshots) formulation tol).flow_lower
          = passive_branch_flow_lower net snapshots
      ∧ (network_lopf_model net (some snapshots) formulation tol).state_of_charge_constraint
          = state_of_charge_constraints net snapshots
      ∧ (network_lopf_model net (some snapshots) formulation tol).objective
          = define_linear_objective net snapshots)
    ∧ (net.passive_branches ≠ [] → snapshots ≠ [] →
      network_lopf_build net (some snapshots) formulation tol
        = Except.error "AttributeError: passive_branch_p") := by
  simp only [List.mem_cons, List.not_mem_nil, or_false] at h
  push_neg at h
  obtain ⟨h1, h2, h3, h4⟩ := h
  have hdecl : passive_branch_p_declared formulation = false := by
    simp [passive_branch_p_declared, h1, h2, h3, h4]
  constructor
  · intro hempty
    have hcond : ¬(passive_branch_p_declared formulation = false
        ∧ net.passive_branches ≠ [] ∧ snapshots ≠ []) := by
      rcases hempty with he | he
      · exact fun hcontra => hcontra.2.1 he
      · exact fun hcontra => hcontra.2.2 he
    refine ⟨?_, ?_⟩
    · simp only [network_lopf_build, define_passive_branch_constraints_checked]
      rw [if_neg hcond]
    · simp [network_lopf_model, h1, h2, h3, h4]
  · intro hb hs
    simp only [network_lopf_build, define_passive_branch_constraints_checked]
    rw [if_pos ⟨hdecl, hb, hs⟩]

/-- Witness for `C7_unknown_formulation_not_rejected` at the concrete
network `net1` and formulation "foo". -/
theorem C7_unknown_formulation_not_rejected_witness :
    ("foo" ∉ (["angles", "ptdf", "cycles", "kirchhoff"] : List String))
    ∧ ((net1.passive_branches = [] ∨ (["t0"] : List String) = [] →
        network_lopf_build net1 (some ["t0"]) "foo" 0
          = Except.ok (network_lopf_model net1 (some ["t0"]) "foo" 0)
        ∧ (network_lopf_model net1 (some ["t0"]) "foo" 0).power_balance = []
        ∧ (network_lopf_model net1 (some ["t0"]) "foo" 0).sub_network_balance = []
        ∧ (network_lopf_model net1 (some ["t0"]) "foo" 0).passive_branch_p_def = []
        ∧ (network_lopf_model net1 (some ["t0"]) "foo" 0).cycle_constraints = []
        ∧ (network_lopf_model net1 (some ["t0"]) "foo" 0).cycles_vars = none
        ∧ (network_lopf_model net1 (some ["t0"]) "foo" 0).slack_angle = []
        ∧ (network_lopf_model net1 (some ["t0"]) "foo" 0).flow_upper
            = passive_branch_flow_upper net1 ["t0"]
        ∧ (network_lopf_model net1 (some ["t0"]) "foo" 0).flow_lower
            = passive_branch_flow_lower net1 ["t0"]
        ∧ (network_lopf_model net1 (some ["t0"]) "foo" 0).state_of_charge_constraint
            = state_of_charge_constraints net1 ["t0"]
        ∧ (network_lopf_model net1 (some ["t0"]) "foo" 0).objective
            = define_linear_objective net1 ["t0"])
      ∧ (net1.passive_branches ≠ [] → (["t0"] : List String) ≠ [] →
        network_lopf_build net1 (some ["t0"]) "foo" 0
          = Except.error "AttributeError: passive_branch_p")) :=
  ⟨by decide, C7_unknown_formulation_not_rejected net1 ["t0"] "foo" 0 (by decide)⟩

/-- C1: with formulation "angles" or "kirchhoff" the built model has, for
every bus and snapshot of the solve window, exactly one equality constraint
setting the bus's nodal balance expression (with the passive-branch flow
terms appended) to zero, and no sub-network balance constraints; with
"ptdf" or "cycles" it instead has, for every sub-network and snapshot,
exactly one equality summing the balance expressions over the sub-network's
buses (variable lists concatenated, constants added), and no per-bus
balance constraints. -/
theorem C1_balance_granularity (net : Network) (snapshots : List String)
    (formulation : String) (tol : ℚ)
    (hbus : net.buses.Nodup) (hsn : snapshots.Nodup)
    (hsub : (net.sub_networks.map fun sub => sub.name).Nodup) :
    ((formulation = "angles" ∨ formulation = "kirchhoff") →
      (network_lopf_model net (some snapshots) formulation tol).sub_network_balance = []
      ∧ ∀ bus ∈ net.buses, ∀ sn ∈ snapshots,
          (((network_lopf_model net (some snapshots) formulation tol).power_balance.map
              Prod.fst).countP (fun k => decide (k = (bus, sn))) = 1
          ∧ ((bus, sn),
             LConstraint.mk
               ⟨(p_balance net bus sn).vars ++ branch_balance_terms net bus sn,
                (p_balance net bus sn).constant⟩ Sense.eq LExpression.zero)
              ∈ (network_lopf_model net (some snapshots) formulation tol).power_balance))
    ∧ ((formulation = "ptdf" ∨ formulation = "cycles") →
      (network_lopf_model net (some snapshots) formulation tol).power_balance = []
      ∧ ∀ sub ∈ net.sub_networks, ∀ sn ∈ snapshots,
          (((network_lopf_model net (some snapshots) formulation tol).sub_network_balance.map
              Prod.fst).countP (fun k => decide (k = (sub.name, sn))) = 1
          ∧ ((sub.name, sn),
             LConstraint.mk
               ⟨sub.buses.flatMap fun bus => (p_balance net bus sn).vars,
                (sub.buses.map fun bus => (p_balance net bus sn).constant).sum⟩
               Sense.eq LExpression.zero)
              ∈ (network_lopf_model net (some snapshots) formulation tol).sub_network_balance)) := by
  constructor
  · intro hf
    have hM : (network_lopf_model net (some snapshots) formulation tol).power_balance
        = define_nodal_balance_constraints net snapshots := by
      rcases hf with rfl | rfl <;> simp [network_lopf_model]
    have hM2 : (network_lopf_model net (some snapshots) formulation tol).sub_network_balance
        = [] := by
      rcases hf with rfl | rfl <;> simp [network_lopf_model]
    refine ⟨hM2, fun bus hb sn hs => ⟨?_, ?_⟩⟩
    · rw [hM]
      have hkeys : (define_nodal_balance_constraints net snapshots).map Prod.fst
          = net.buses.flatMap fun b => snapshots.map fun s => (b, s) := by
        simp [define_nodal_balance_constraints, List.map_flatMap, List.map_map,
          Function.comp_def]
      rw [hkeys]
      refine countP_eq_one_of_nodup_mem ?_ ?_
      · refine nodup_flatMap_product (fun b s => (b, s)) hsn ?_ ?_
        · intro a _ b _ b2 _ h
          exact (Prod.ext_iff.mp h).2
        · refine hbus.imp ?_
          intro a a2 h b _ b2 _ heq
          exact h (Prod.ext_iff.mp heq).1
      · exact List.mem_flatMap.mpr ⟨bus, hb, List.mem_map.mpr ⟨sn, hs, rfl⟩⟩
    · rw [hM]
      exact List.mem_flatMap.mpr ⟨bus, hb, List.mem_map.mpr ⟨sn, hs, rfl⟩⟩
  · intro hf
    have hM : (network_lopf_model net (some snapshots) formulation tol).sub_network_balance
        = define_sub_network_balance_constraints net snapshots := by
      rcases hf with rfl | rfl <;> simp [network_lopf_model]
    have hM2 : (network_lopf_model net (some snapshots) formulation tol).power_balance
        = [] := by
      rcases hf with rfl | rfl <;> simp [network_lopf_model]
    refine ⟨hM2, fun sub hb sn hs => ⟨?_, ?_⟩⟩
    · rw [hM]
      have hkeys : (define_sub_network_balance_constraints net snapshots).map Prod.fst
          = net.sub_networks.flatMap fun s => snapshots.map fun sn2 => (s.name, sn2) := by
        simp [define_sub_network_balance_constraints, List.map_flatMap, List.map_map,
          Function.comp_def]
      rw [hkeys]
      refine countP_eq_one_of_nodup_mem ?_ ?_
      · refine nodup_flatMap_product (fun (s : SubNetwork) (sn2 : String) => (s.name, sn2))
          hsn ?_ ?_
        · intro a _ b _ b2 _ h
          exact (Prod.ext_iff.mp h).2
        · refine (List.pairwise_map.mp hsub).imp ?_
          intro a a2 h b _ b2 _ heq
          exact h (Prod.ext_iff.mp heq).1
      · exact List.mem_flatMap.mpr ⟨sub, hb, List.mem_map.mpr ⟨sn, hs, rfl⟩⟩
    · rw [hM]
      exact List.mem_flatMap.mpr ⟨sub, hb, List.mem_map.mpr ⟨sn, hs, rfl⟩⟩

/-- Witness for `C1_balance_granularity` at `net1` with formulation
"angles". -/
theorem C1_balance_granularity_witness :
    (net1.buses.Nodup ∧ (["t0"] : List String).Nodup
      ∧ (net1.sub_networks.map fun sub => sub.name).Nodup)
    ∧ ((("angles" : String) = "angles" ∨ ("angles" : String) = "kirchhoff") →
        (network_lopf_model net1 (some ["t0"]) "angles" 0).sub_network_balance = []
        ∧ ∀ bus ∈ net1.buses, ∀ sn ∈ (["t0"] : List String),
            (((network_lopf_model net1 (some ["t0"]) "angles" 0).power_balance.map
                Prod.fst).countP (fun k => decide (k = (bus, sn))) = 1
            ∧ ((bus, sn),
               LConstraint.mk
                 ⟨(p_balance net1 bus sn).vars ++ branch_balance_terms net1 bus sn,
                  (p_balance net1 bus sn).constant⟩ Sense.eq LExpression.zero)
                ∈ (network_lopf_model net1 (some ["t0"]) "angles" 0).power_balance))
    ∧ ((("angles" : String) = "ptdf" ∨ ("angles" : String) = "cycles") →
        (network_lopf_model net1 (some ["t0"]) "angles" 0).power_balance = []
        ∧ ∀ sub ∈ net1.sub_networks, ∀ sn ∈ (["t0"] : List String),
            (((network_lopf_model net1 (some ["t0"]) "angles" 0).sub_network_balance.map
                Prod.fst).countP (fun k => decide (k = (sub.name, sn))) = 1
            ∧ ((sub.name, sn),
               LConstraint.mk
                 ⟨sub.buses.flatMap fun bus => (p_balance net1 bus sn).vars,
                  (sub.buses.map fun bus => (p_balance net1 bus sn).constant).sum⟩
                 Sense.eq LExpression.zero)
                ∈ (network_lopf_model net1 (some ["t0"]) "angles" 0).sub_network_balance)) :=
  ⟨⟨by decide, by decide, by decide⟩,
   C1_balance_granularity net1 ["t0"] "angles" 0 (by decide) (by decide) (by decide)⟩

/-- C4: the cycle (Kirchhoff voltage law) constraints of the "kirchhoff"
formulation are identical to those of the "cycles" formulation — for each
sub-network, cycle-basis column and snapshot an equality
`Σᵢ impedance[i]·C[i,j]·p[branchᵢ,t] = 0` with impedance `r_pu` on DC
sub-networks and `x_pu` otherwise — and "kirchhoff" declares no auxiliary
`cycles` variables while "cycles" does. -/
theorem C4_kirchhoff_cycles_equivalence (net : Network) (snapshots : List String) (tol : ℚ)
    (sub : SubNetwork) (hsub : sub ∈ net.sub_networks) (j : Nat) (hj : j < sub.nCycles)
    (sn : String) (hs : sn ∈ snapshots) :
    kirchhoff_cycle_constraints net snapshots = cycles_cycle_constraints net snapshots
    ∧ (network_lopf_model net (some snapshots) "kirchhoff" tol).cycle_constraints
        = (network_lopf_model net (some snapshots) "cycles" tol).cycle_constraints
    ∧ (network_lopf_model net (some snapshots) "kirchhoff" tol).cycles_vars = none
    ∧ (network_lopf_model net (some snapshots) "cycles" tol).cycles_vars
        = some (cycle_index net)
    ∧ ((sub.name, j, sn),
       LConstraint.mk
         ⟨sub.branches.enum.flatMap fun p =>
            if (sub.C.getD p.1 []).getD j 0 = 0 then []
            else [((if sub.carrier = "DC" then p.2.r_pu else p.2.x_pu)
                     * (sub.C.getD p.1 []).getD j 0,
                   LVar.passive_branch_p p.2.branch_type p.2.name sn)], 0⟩
         Sense.eq LExpression.zero)
        ∈ (network_lopf_model net (some snapshots) "kirchhoff" tol).cycle_constraints := by
  have hk : (network_lopf_model net (some snapshots) "kirchhoff" tol).cycle_constraints
      = kirchhoff_cycle_constraints net snapshots := by
    simp [network_lopf_model]
  have hc : (network_lopf_model net (some snapshots) "cycles" tol).cycle_constraints
      = cycles_cycle_constraints net snapshots := by
    simp [network_lopf_model]
  refine ⟨rfl, by rw [hk, hc]; rfl, by simp [network_lopf_model], by simp [network_lopf_model], ?_⟩
  rw [hk]
  refine List.mem_flatMap.mpr ⟨sub, hsub, ?_⟩
  refine List.mem_flatMap.mpr ⟨j, List.mem_range.mpr hj, ?_⟩
  exact List.mem_map.mpr ⟨sn, hs, rfl⟩

/-- Witness for `C4_kirchhoff_cycles_equivalence` at the three-bus ring
`net4`. -/
theorem C4_kirchhoff_cycles_equivalence_witness :
    (sub4 ∈ net4.sub_networks ∧ 0 < sub4.nCycles ∧ "t0" ∈ (["t0"] : List String))
    ∧ (kirchhoff_cycle_constraints net4 ["t0"] = cycles_cycle_constraints net4 ["t0"]
      ∧ (network_lopf_model net4 (some ["t0"]) "kirchhoff" 0).cycle_constraints
          = (network_lopf_model net4 (some ["t0"]) "cycles" 0).cycle_constraints
      ∧ (network_lopf_model net4 (some ["t0"]) "kirchhoff" 0).cycles_vars = none
      ∧ (network_lopf_model net4 (some ["t0"]) "cycles" 0).cycles_vars
          = some (cycle_index net4)
      ∧ ((sub4.name, 0, "t0"),
         LConstraint.mk
           ⟨sub4.branches.enum.flatMap fun p =>
              if (sub4.C.getD p.1 []).getD 0 0 = 0 then []
              else [((if sub4.carrier = "DC" then p.2.r_pu else p.2.x_pu)
                       * (sub4.C.getD p.1 []).getD 0 0,
                     LVar.passive_branch_p p.2.branch_type p.2.name "t0")], 0⟩
           Sense.eq LExpression.zero)
          ∈ (network_lopf_model net4 (some ["t0"]) "kirchhoff" 0).cycle_constraints) :=
  ⟨⟨by decide, by decide, by decide⟩,
   C4_kirchhoff_cycles_equivalence net4 ["t0"] 0 sub4 (by decide) 0 (by decide) "t0" (by decide)⟩

/-- C5: for every passive branch and snapshot, regardless of formulation,
`define_passive_branch_constraints` adds exactly one upper and one lower
flow inequality: `p ≤ s_nom` and `p ≥ -s_nom` for a fixed branch,
`p - passive_branch_s_nom ≤ 0` and `p + passive_branch_s_nom ≥ 0` for an
extendable one. -/
theorem C5_flow_limit_constraints (net : Network) (snapshots : List String)
    (b : PassiveBranch) (sn : String) (hb : b ∈ net.passive_branches) (hs : sn ∈ snapshots)
    (hkeys : net.passive_branches.Pairwise
      fun x y => (x.branch_type, x.name) ≠ (y.branch_type, y.name))
    (hsn : snapshots.Nodup) :
    (∀ formulation tol,
      (network_lopf_model net (some snapshots) formulation tol).flow_upper
        = passive_branch_flow_upper net snapshots
      ∧ (network_lopf_model net (some snapshots) formulation tol).flow_lower
        = passive_branch_flow_lower net snapshots)
    ∧ ((b.branch_type, b.name, sn),
       if b.s_nom_extendable then
         listCon [((1 : ℚ), LVar.passive_branch_p b.branch_type b.name sn),
                  ((-1 : ℚ), LVar.passive_branch_s_nom b.branch_type b.name)] Sense.le 0
       else
         listCon [((1 : ℚ), LVar.passive_branch_p b.branch_type b.name sn)] Sense.le b.s_nom)
        ∈ passive_branch_flow_upper net snapshots
    ∧ ((b.branch_type, b.name, sn),
       if b.s_nom_extendable then
         listCon [((1 : ℚ), LVar.passive_branch_p b.branch_type b.name sn),
                  ((1 : ℚ), LVar.passive_branch_s_nom b.branch_type b.name)] Sense.ge 0
       else
         listCon [((1 : ℚ), LVar.passive_branch_p b.branch_type b.name sn)] Sense.ge (-b.s_nom))
        ∈ passive_branch_flow_lower net snapshots
    ∧ ((passive_branch_flow_upper net snapshots).map Prod.fst).countP
        (fun k => decide (k = (b.branch_type, b.name, sn))) = 1
    ∧ ((passive_branch_flow_lower net snapshots).map Prod.fst).countP
        (fun k => decide (k = (b.branch_type, b.name, sn))) = 1 := by
  have hkeymap : ∀ (g : PassiveBranch → String → LConstraint),
      ((net.passive_branches.flatMap fun b2 => snapshots.map fun sn2 =>
          ((b2.branch_type, b2.name, sn2), g b2 sn2)).map Prod.fst)
        = net.passive_branches.flatMap fun b2 => snapshots.map fun sn2 =>
            (b2.branch_type, b2.name, sn2) := by
    intro g
    simp [List.map_flatMap, List.map_map, Function.comp_def]
  have hnodup : (net.passive_branches.flatMap fun b2 => snapshots.map fun sn2 =>
      (b2.branch_type, b2.name, sn2)).Nodup := by
    refine nodup_flatMap_product
      (fun (b2 : PassiveBranch) (sn2 : String) => (b2.branch_type, b2.name, sn2)) hsn ?_ ?_
    · intro a _ x _ x2 _ h
      exact (Prod.ext_iff.mp (Prod.ext_iff.mp h).2).2
    · refine hkeys.imp ?_
      intro a a2 h x _ x2 _ heq
      refine h ?_
      have h1 := (Prod.ext_iff.mp heq).1
      have h2 := (Prod.ext_iff.mp (Prod.ext_iff.mp heq).2).1
      exact Prod.ext_iff.mpr ⟨h1, h2⟩
  have hmemkey : (b.branch_type, b.name, sn)
      ∈ net.passive_branches.flatMap fun b2 => snapshots.map fun sn2 =>
          (b2.branch_type, b2.name, sn2) :=
    List.mem_flatMap.mpr ⟨b, hb, List.mem_map.mpr ⟨sn, hs, rfl⟩⟩
  have hup : (passive_branch_flow_upper net snapshots).map Prod.fst
      = net.passive_branches.flatMap fun b2 => snapshots.map fun sn2 =>
          (b2.branch_type, b2.name, sn2) := hkeymap _
  have hlo : (passive_branch_flow_lower net snapshots).map Prod.fst
      = net.passive_branches.flatMap fun b2 => snapshots.map fun sn2 =>
          (b2.branch_type, b2.name, sn2) := hkeymap _
  refine ⟨fun formulation tol => ⟨rfl, rfl⟩, ?_, ?_, ?_, ?_⟩
  · exact List.mem_flatMap.mpr ⟨b, hb, List.mem_map.mpr ⟨sn, hs, rfl⟩⟩
  · exact List.mem_flatMap.mpr ⟨b, hb, List.mem_map.mpr ⟨sn, hs, rfl⟩⟩
  · rw [hup]
    exact countP_eq_one_of_nodup_mem hnodup hmemkey
  · rw [hlo]
    exact countP_eq_one_of_nodup_mem hnodup hmemkey

/-- Witness for `C5_flow_limit_constraints` at the extendable line "L2" of
`net4`. -/
theorem C5_flow_limit_constraints_witness :
    ((ringBranches.getD 1 { branch_type := "", name := "", bus0 := "", bus1 := "" })
        ∈ net4.passive_branches
      ∧ "t0" ∈ (["t0"] : List String)
      ∧ net4.passive_branches.Pairwise
          (fun x y => (x.branch_type, x.name) ≠ (y.branch_type, y.name))
      ∧ (["t0"] : List String).Nodup)
    ∧ (((passive_branch_flow_upper net4 ["t0"]).map Prod.fst).countP
        (fun k => decide
          (k = ((ringBranches.getD 1 { branch_type := "", name := "", bus0 := "", bus1 := "" }).branch_type,
                (ringBranches.getD 1 { branch_type := "", name := "", bus0 := "", bus1 := "" }).name,
                "t0"))) = 1) :=
  ⟨⟨by decide, by decide, by decide, by decide⟩,
   (C5_flow_limit_constraints net4 ["t0"]
     (ringBranches.getD 1 { branch_type := "", name := "", bus0 := "", bus1 := "" }) "t0"
     (by decide) (by decide) (by decide) (by decide)).2.2.2.1⟩

/-! ### Snapshot-component lemmas for the constraint groups -/

theorem spill_append_fst (net : Network) (S : List String)
    (kc : (String × String) × LConstraint) : (spill_append net S kc).1 = kc.1 := by
  unfold spill_append
  split <;> rfl

theorem snapshot_mem_of_nodal {net : Network} {S : List String}
    {kc : (String × String) × LConstraint}
    (h : kc ∈ define_nodal_balance_constraints net S) : kc.1.2 ∈ S := by
  simp only [define_nodal_balance_constraints, List.mem_flatMap, List.mem_map] at h
  obtain ⟨bus, _, sn, hsn, rfl⟩ := h
  exact hsn

theorem snapshot_mem_of_subnet {net : Network} {S : List String}
    {kc : (String × String) × LConstraint}
    (h : kc ∈ define_sub_network_balance_constraints net S) : kc.1.2 ∈ S := by
  simp only [define_sub_network_balance_constraints, List.mem_flatMap, List.mem_map] at h
  obtain ⟨sub, _, sn, hsn, rfl⟩ := h
  exact hsn

theorem snapshot_mem_of_soc {net : Network} {S : List String}
    {kc : (String × String) × LConstraint}
    (h : kc ∈ state_of_charge_constraints net S) : kc.1.2 ∈ S := by
  simp only [state_of_charge_constraints, List.mem_map, List.mem_flatMap] at h
  obtain ⟨kc0, ⟨su, _, p, hp, rfl⟩, rfl⟩ := h
  rw [spill_append_fst]
  rw [List.mem_enum_iff_get?] at hp
  exact List.get?_mem hp

theorem snapshot_mem_of_fixed_soc {net : Network} {S : List String}
    {kc : (String × String) × LConstraint}
    (h : kc ∈ fixed_soc_constraints net S) : kc.1.2 ∈ S := by
  simp only [fixed_soc_constraints, List.mem_flatMap, List.mem_filterMap] at h
  obtain ⟨su, _, sn, hsn, hmatch⟩ := h
  cases hv : net.state_of_charge_set sn su.name with
  | none => rw [hv] at hmatch; cases hmatch
  | some v =>
    rw [hv] at hmatch
    simp only [Option.some.injEq] at hmatch
    rw [← hmatch]
    exact hsn

theorem snapshot_mem_of_slack {net : Network} {S : List String}
    {kc : (String × String) × LConstraint}
    (h : kc ∈ slack_angle_constraints net S) : kc.1.2 ∈ S := by
  simp only [slack_angle_constraints, List.mem_flatMap, List.mem_map] at h
  obtain ⟨sub, _, sn, hsn, rfl⟩ := h
  exact hsn

theorem snapshot_mem_of_flow_upper {net : Network} {S : List String}
    {kc : (String × String × String) × LConstraint}
    (h : kc ∈ passive_branch_flow_upper net S) : kc.1.2.2 ∈ S := by
  simp only [passive_branch_flow_upper, List.mem_flatMap, List.mem_map] at h
  obtain ⟨b, _, sn, hsn, rfl⟩ := h
  exact hsn

theorem snapshot_mem_of_flow_lower {net : Network} {S : List String}
    {kc : (String × String × String) × LConstraint}
    (h : kc ∈ passive_branch_flow_lower net S) : kc.1.2.2 ∈ S := by
  simp only [passive_branch_flow_lower, List.mem_flatMap, List.mem_map] at h
  obtain ⟨b, _, sn, hsn, rfl⟩ := h
  exact hsn

theorem snapshot_mem_of_angles {net : Network} {S : List String}
    {kc : (String × String × String) × LConstraint}
    (h : kc ∈ angles_flows net S) : kc.1.2.2 ∈ S := by
  simp only [angles_flows, List.mem_flatMap, List.mem_map] at h
  obtain ⟨b, _, sn, hsn, rfl⟩ := h
  exact hsn

theorem snapshot_mem_of_ptdf {net : Network} {S : List String} {tol : ℚ}
    {kc : (String × String × String) × LConstraint}
    (h : kc ∈ ptdf_flows net S tol) : kc.1.2.2 ∈ S := by
  simp only [ptdf_flows, List.mem_flatMap, List.mem_map] at h
  obtain ⟨sub, _, p, _, sn, hsn, rfl⟩ := h
  exact hsn

theorem snapshot_mem_of_cycles_flows {net : Network} {S : List String}
    {kc : (String × String × String) × LConstraint}
    (h : kc ∈ cycles_flows net S) : kc.1.2.2 ∈ S := by
  simp only [cycles_flows, List.mem_flatMap, List.mem_map] at h
  obtain ⟨sub, _, p, _, sn, hsn, rfl⟩ := h
  exact hsn

theorem snapshot_mem_of_cycles_cycle {net : Network} {S : List String}
    {kc : (String × Nat × String) × LConstraint}
    (h : kc ∈ cycles_cycle_constraints net S) : kc.1.2.2 ∈ S := by
  simp only [cycles_cycle_constraints, List.mem_flatMap, List.mem_map] at h
  obtain ⟨sub, _, j, _, sn, hsn, rfl⟩ := h
  exact hsn

theorem snapshot_mem_of_kirchhoff_cycle {net : Network} {S : List String}
    {kc : (String × Nat × String) × LConstraint}
    (h : kc ∈ kirchhoff_cycle_constraints net S) : kc.1.2.2 ∈ S := by
  simp only [kirchhoff_cycle_constraints, List.mem_flatMap, List.mem_map] at h
  obtain ⟨sub, _, j, _, sn, hsn, rfl⟩ := h
  exact hsn

/-- Every per-snapshot constraint key of the built model takes its snapshot
component from the solve window, whatever the formulation. -/
theorem model_keys_subset (net : Network) (S : List String) (formulation : String) (tol : ℚ) :
    (∀ kc ∈ (network_lopf_model net (some S) formulation tol).power_balance, kc.1.2 ∈ S)
    ∧ (∀ kc ∈ (network_lopf_model net (some S) formulation tol).sub_network_balance,
        kc.1.2 ∈ S)
    ∧ (∀ kc ∈ (network_lopf_model net (some S) formulation tol).state_of_charge_constraint,
        kc.1.2 ∈ S)
    ∧ (∀ kc ∈ (network_lopf_model net (some S) formulation
          tol).state_of_charge_constraint_fixed, kc.1.2 ∈ S)
    ∧ (∀ kc ∈ (network_lopf_model net (some S) formulation tol).slack_angle, kc.1.2 ∈ S)
    ∧ (∀ kc ∈ (network_lopf_model net (some S) formulation tol).flow_upper, kc.1.2.2 ∈ S)
    ∧ (∀ kc ∈ (network_lopf_model net (some S) formulation tol).flow_lower, kc.1.2.2 ∈ S)
    ∧ (∀ kc ∈ (network_lopf_model net (some S) formulation tol).passive_branch_p_def,
        kc.1.2.2 ∈ S)
    ∧ (∀ kc ∈ (network_lopf_model net (some S) formulation tol).cycle_constraints,
        kc.1.2.2 ∈ S) := by
  refine ⟨?_, ?_, ?_, ?_, ?_, ?_, ?_, ?_, ?_⟩ <;>
    intro kc hkc <;> simp only [network_lopf_model] at hkc
  · by_cases hf : formulation = "angles" ∨ formulation = "kirchhoff"
    · rw [if_pos hf] at hkc
      exact snapshot_mem_of_nodal hkc
    · rw [if_neg hf] at hkc
      exact absurd hkc (List.not_mem_nil kc)
  · by_cases hf : formulation = "ptdf" ∨ formulation = "cycles"
    · rw [if_pos hf] at hkc
      exact snapshot_mem_of_subnet hkc
    · rw [if_neg hf] at hkc
      exact absurd hkc (List.not_mem_nil kc)
  · exact snapshot_mem_of_soc hkc
  · exact snapshot_mem_of_fixed_soc hkc
  · by_cases hf : formulation = "angles"
    · rw [if_pos hf] at hkc
      exact snapshot_mem_of_slack hkc
    · rw [if_neg hf] at hkc
      exact absurd hkc (List.not_mem_nil kc)
  · exact snapshot_mem_of_flow_upper hkc
  · exact snapshot_mem_of_flow_lower hkc
  · by_cases h1 : formulation = "angles"
    · rw [if_pos h1] at hkc
      exact snapshot_mem_of_angles hkc
    · rw [if_neg h1] at hkc
      by_cases h2 : formulation = "ptdf"
      · rw [if_pos h2] at hkc
        exact snapshot_mem_of_ptdf hkc
      · rw [if_neg h2] at hkc
        by_cases h3 : formulation = "cycles"
        · rw [if_pos h3] at hkc
          exact snapshot_mem_of_cycles_flows hkc
        · rw [if_neg h3] at hkc
          exact absurd hkc (List.not_mem_nil kc)
  · by_cases h1 : formulation = "cycles"
    · rw [if_pos h1] at hkc
      exact snapshot_mem_of_cycles_cycle hkc
    · rw [if_neg h1] at hkc
      by_cases h2 : formulation = "kirchhoff"
      · rw [if_pos h2] at hkc
        exact snapshot_mem_of_kirchhoff_cycle hkc
      · rw [if_neg h2] at hkc
        exact absurd hkc (List.not_mem_nil kc)

/-- C10: calling the builder with `snapshots = none` builds the model over
the single snapshot `network.now` — the model equals the one built with the
explicit window `[network.now]`, and every per-snapshot constraint key of
the resulting model carries the snapshot `network.now`. -/
theorem C10_default_snapshot_is_now (net : Network) (formulation : String) (tol : ℚ) :
    network_lopf_model net none formulation tol
      = network_lopf_model net (some [net.now]) formulation tol
    ∧ (network_lopf_model net none formulation tol).allSnapshotKeys net.now = true := by
  have H := model_keys_subset net [net.now] formulation tol
  refine ⟨rfl, ?_⟩
  simp only [Model.allSnapshotKeys, Bool.and_eq_true, List.all_eq_true]
  refine ⟨⟨⟨⟨⟨⟨⟨⟨?_, ?_⟩, ?_⟩, ?_⟩, ?_⟩, ?_⟩, ?_⟩, ?_⟩, ?_⟩
  · intro kc hkc
    have h2 := H.1 kc hkc
    rw [List.mem_singleton] at h2
    simp [h2]
  · intro kc hkc
    have h2 := H.2.1 kc hkc
    rw [List.mem_singleton] at h2
    simp [h2]
  · intro kc hkc
    have h2 := H.2.2.1 kc hkc
    rw [List.mem_singleton] at h2
    simp [h2]
  · intro kc hkc
    have h2 := H.2.2.2.1 kc hkc
    rw [List.mem_singleton] at h2
    simp [h2]
  · intro kc hkc
    have h2 := H.2.2.2.2.1 kc hkc
    rw [List.mem_singleton] at h2
    simp [h2]
  · intro kc hkc
    have h2 := H.2.2.2.2.2.1 kc hkc
    rw [List.mem_singleton] at h2
    simp [h2]
  · intro kc hkc
    have h2 := H.2.2.2.2.2.2.1 kc hkc
    rw [List.mem_singleton] at h2
    simp [h2]
  · intro kc hkc
    have h2 := H.2.2.2.2.2.2.2.1 kc hkc
    rw [List.mem_singleton] at h2
    simp [h2]
  · intro kc hkc
    have h2 := H.2.2.2.2.2.2.2.2 kc hkc
    rw [List.mem_singleton] at h2
    simp [h2]

/-- C3 (failing input): in `net3` the snapshot weightings are
`w("a") = 1`, `w("b") = 2` and a spill variable exists at ("s", "a");
the source appends the spill term with the leftover `elapsed_hours` of the
preceding loop — the weighting 2 of the LAST snapshot "b" — so the spill
coefficient at ("s", "a") is -2, while the claimed coefficient
`-Δt = -w("a")` is -1. -/
theorem C3_spill_weighting_stale :
    spill_append net3 ["a", "b"] (("s", "a"), socConstraintAt net3 ["a", "b"] su3 0 "a")
      ∈ state_of_charge_constraints net3 ["a", "b"]
    ∧ (spill_append net3 ["a", "b"]
        (("s", "a"), socConstraintAt net3 ["a", "b"] su3 0 "a")).1 = ("s", "a")
    ∧ (spill_append net3 ["a", "b"]
        (("s", "a"), socConstraintAt net3 ["a", "b"] su3 0 "a")).2.lhs.vars.getLast?
        = some ((-2 : ℚ), LVar.storage_p_spill "s" "a")
    ∧ net3.snapshot_weightings "a" = 1
    ∧ ((-2 : ℚ)) ≠ -(1 : ℚ) * ((net3.snapshot_weightings "a" : ℕ) : ℚ) := by
  have hcontains : ((spill_index net3 ["a", "b"]).contains
      ((("s", "a"), socConstraintAt net3 ["a", "b"] su3 0 "a")).1) = true := by
    decide
  have hsa : spill_append net3 ["a", "b"]
      (("s", "a"), socConstraintAt net3 ["a", "b"] su3 0 "a")
      = (("s", "a"),
         ⟨⟨(socConstraintAt net3 ["a", "b"] su3 0 "a").lhs.vars
             ++ [(-(1 : ℚ) * (lastElapsed net3 ["a", "b"] : ℚ),
                  LVar.storage_p_spill "s" "a")],
           (socConstraintAt net3 ["a", "b"] su3 0 "a").lhs.constant⟩,
          (socConstraintAt net3 ["a", "b"] su3 0 "a").sense,
          (socConstraintAt net3 ["a", "b"] su3 0 "a").rhs⟩) := by
    unfold spill_append
    rw [if_pos hcontains]
  refine ⟨?_, by rw [hsa], ?_, rfl, ?_⟩
  · refine List.mem_map.mpr
      ⟨(("s", "a"), socConstraintAt net3 ["a", "b"] su3 0 "a"), ?_, rfl⟩
    refine List.mem_flatMap.mpr ⟨su3, List.mem_cons_self su3 [], ?_⟩
    exact List.mem_map.mpr ⟨(0, "a"), by decide, rfl⟩
  · rw [hsa]
    have hlast : lastElapsed net3 ["a", "b"] = 2 := rfl
    rw [List.getLast?_concat, hlast]
    norm_num
  · have hw : net3.snapshot_weightings "a" = 1 := rfl
    rw [hw]
    norm_num

/-- C6: under any assignment, the objective built by
`define_linear_objective` equals the marginal costs (weighted by the
snapshot weightings) of all generators, storage units, stores and links,
plus the capital cost of the extendable nominal-capacity variables, minus
the constant capital cost of the existing capacities; in particular an
assignment that keeps every extendable capacity at its existing value
contributes zero capital cost. -/
theorem C6_linear_objective (net : Network) (snapshots : List String) (σ : LVar → ℚ)
    (hgen : ∀ g ∈ net.generators, g.p_nom_extendable = true →
      σ (LVar.generator_p_nom g.name) = g.p_nom)
    (hsu : ∀ su ∈ net.storage_units, su.p_nom_extendable = true →
      σ (LVar.storage_p_nom su.name) = su.p_nom)
    (hst : ∀ store ∈ net.stores, store.e_nom_extendable = true →
      σ (LVar.store_e_nom store.name) = store.e_nom)
    (hbr : ∀ b ∈ net.passive_branches, b.s_nom_extendable = true →
      σ (LVar.passive_branch_s_nom b.branch_type b.name) = b.s_nom)
    (hli : ∀ link ∈ net.links, link.p_nom_extendable = true →
      σ (LVar.link_p_nom link.name) = link.p_nom) :
    (∀ τ : LVar → ℚ, LExpression.eval τ (define_linear_objective net snapshots)
        = marginal_cost_total net snapshots τ + capital_cost_of_variables net τ
          - capital_cost_of_existing net)
    ∧ LExpression.eval σ (define_linear_objective net snapshots)
        = marginal_cost_total net snapshots σ := by
  have hgeneral : ∀ τ : LVar → ℚ,
      LExpression.eval τ (define_linear_objective net snapshots)
        = marginal_cost_total net snapshots τ + capital_cost_of_variables net τ
          - capital_cost_of_existing net := by
    intro τ
    simp only [LExpression.eval, define_linear_objective, marginal_cost_total,
      capital_cost_of_variables, capital_cost_of_existing, List.map_append,
      List.sum_append, List.map_flatMap, List.map_map, Function.comp_def,
      sum_flatMap_eq]
    ring
  refine ⟨hgeneral, ?_⟩
  have hCV : capital_cost_of_variables net σ = capital_cost_of_existing net := by
    unfold capital_cost_of_variables capital_cost_of_existing
    have e1 : ((net.generators.filter fun gen => gen.p_nom_extendable).map fun gen =>
        gen.capital_cost * σ (LVar.generator_p_nom gen.name))
        = (net.generators.filter fun gen => gen.p_nom_extendable).map fun gen =>
            gen.capital_cost * gen.p_nom := by
      refine List.map_congr_left ?_
      intro g hg
      obtain ⟨hm, hp⟩ := List.mem_filter.mp hg
      rw [hgen g hm hp]
    have e2 : ((net.storage_units.filter fun su => su.p_nom_extendable).map fun su =>
        su.capital_cost * σ (LVar.storage_p_nom su.name))
        = (net.storage_units.filter fun su => su.p_nom_extendable).map fun su =>
            su.capital_cost * su.p_nom := by
      refine List.map_congr_left ?_
      intro su0 hg
      obtain ⟨hm, hp⟩ := List.mem_filter.mp hg
      rw [hsu su0 hm hp]
    have e3 : ((net.stores.filter fun store => store.e_nom_extendable).map fun store =>
        store.capital_cost * σ (LVar.store_e_nom store.name))
        = (net.stores.filter fun store => store.e_nom_extendable).map fun store =>
            store.capital_cost * store.e_nom := by
      refine List.map_congr_left ?_
      intro st hg
      obtain ⟨hm, hp⟩ := List.mem_filter.mp hg
      rw [hst st hm hp]
    have e4 : ((net.passive_branches.filter fun b => b.s_nom_extendable).map fun b =>
        b.capital_cost * σ (LVar.passive_branch_s_nom b.branch_type b.name))
        = (net.passive_branches.filter fun b => b.s_nom_extendable).map fun b =>
            b.capital_cost * b.s_nom := by
      refine List.map_congr_left ?_
      intro b hg
      obtain ⟨hm, hp⟩ := List.mem_filter.mp hg
      rw [hbr b hm hp]
    have e5 : ((net.links.filter fun link => link.p_nom_extendable).map fun link =>
        link.capital_cost * σ (LVar.link_p_nom link.name))
        = (net.links.filter fun link => link.p_nom_extendable).map fun link =>
            link.capital_cost * link.p_nom := by
      refine List.map_congr_left ?_
      intro l hg
      obtain ⟨hm, hp⟩ := List.mem_filter.mp hg
      rw [hli l hm hp]
    rw [e1, e2, e3, e4, e5]
  rw [hgeneral σ, hCV]
  ring

/-- Witness for `C6_linear_objective` at `net1` (one extendable generator
with capital cost 3 and existing capacity 5), with an assignment keeping the
capacity at its existing value. -/
theorem C6_linear_objective_witness :
    ((∀ g ∈ net1.generators, g.p_nom_extendable = true →
        (fun v => if v = LVar.generator_p_nom "g1" then (5 : ℚ) else 1)
          (LVar.generator_p_nom g.name) = g.p_nom)
      ∧ (∀ su ∈ net1.storage_units, su.p_nom_extendable = true →
        (fun v => if v = LVar.generator_p_nom "g1" then (5 : ℚ) else 1)
          (LVar.storage_p_nom su.name) = su.p_nom)
      ∧ (∀ store ∈ net1.stores, store.e_nom_extendable = true →
        (fun v => if v = LVar.generator_p_nom "g1" then (5 : ℚ) else 1)
          (LVar.store_e_nom store.name) = store.e_nom)
      ∧ (∀ b ∈ net1.passive_branches, b.s_nom_extendable = true →
        (fun v => if v = LVar.generator_p_nom "g1" then (5 : ℚ) else 1)
          (LVar.passive_branch_s_nom b.branch_type b.name) = b.s_nom)
      ∧ (∀ link ∈ net1.links, link.p_nom_extendable = true →
        (fun v => if v = LVar.generator_p_nom "g1" then (5 : ℚ) else 1)
          (LVar.link_p_nom link.name) = link.p_nom))
    ∧ ((∀ τ : LVar → ℚ, LExpression.eval τ (define_linear_objective net1 ["t0"])
          = marginal_cost_total net1 ["t0"] τ + capital_cost_of_variables net1 τ
            - capital_cost_of_existing net1)
      ∧ LExpression.eval (fun v => if v = LVar.generator_p_nom "g1" then (5 : ℚ) else 1)
            (define_linear_objective net1 ["t0"])
          = marginal_cost_total net1 ["t0"]
              (fun v => if v = LVar.generator_p_nom "g1" then (5 : ℚ) else 1)) :=
  ⟨⟨by decide, by decide, by decide, by decide, by decide⟩,
   C6_linear_objective net1 ["t0"]
     (fun v => if v = LVar.generator_p_nom "g1" then (5 : ℚ) else 1)
     (by decide) (by decide) (by decide) (by decide) (by decide)⟩

/-- C2: in the SOC recurrence constraint of storage unit `su` at position
`i` (snapshot `sn`) of the solve window, the previous-SOC contribution is:
the constant `state_of_charge_initial` times the decay factor, moved to the
constant side, when `i = 0` and the unit is not cyclic; the SOC variable of
the LAST window snapshot when `i = 0` and the unit is cyclic; and the SOC
variable of the immediately preceding window snapshot when `i > 0`.  The
remaining terms are the unit's own SOC variable (or its pinned set-point on
the constant side), the store and dispatch terms and possibly a spill
term — no other state-of-charge variable occurs. -/
theorem C2_soc_previous_term (net : Network) (snapshots : List String) (su : StorageUnit)
    (i : Nat) (sn : String) (hsu : su ∈ net.storage_units)
    (hsn : snapshots.get? i = some sn) :
    spill_append net snapshots ((su.name, sn), socConstraintAt net snapshots su i sn)
      ∈ state_of_charge_constraints net snapshots
    ∧ (spill_append net snapshots ((su.name, sn), socConstraintAt net snapshots su i sn)).1
        = (su.name, sn)
    ∧ (spill_append net snapshots
        ((su.name, sn), socConstraintAt net snapshots su i sn)).2.lhs.vars
        = (if i = 0 ∧ su.cyclic_state_of_charge = false then ([] : List (ℚ × LVar))
           else [((1 - su.standing_loss) ^ net.snapshot_weightings sn,
                  LVar.state_of_charge su.name
                    (if i = 0 then snapshots.getLastD "" else snapshots.getD (i - 1) ""))])
          ++ ((match net.state_of_charge_set sn su.name with
               | none => [((-1 : ℚ), LVar.state_of_charge su.name sn)]
               | some _ => ([] : List (ℚ × LVar)))
              ++ [(su.efficiency_store * (net.snapshot_weightings sn : ℚ),
                   LVar.storage_p_store su.name sn),
                  (-(1 / su.efficiency_dispatch) * (net.snapshot_weightings sn : ℚ),
                   LVar.storage_p_dispatch su.name sn)]
              ++ (if (spill_index net snapshots).contains (su.name, sn) then
                    [(-(1 : ℚ) * (lastElapsed net snapshots : ℚ),
                      LVar.storage_p_spill su.name sn)]
                  else []))
    ∧ (spill_append net snapshots
        ((su.name, sn), socConstraintAt net snapshots su i sn)).2.rhs.constant
        = (if i = 0 ∧ su.cyclic_state_of_charge = false then
             -(((1 - su.standing_loss) ^ net.snapshot_weightings sn)
                * su.state_of_charge_initial)
           else 0)
          + (match net.state_of_charge_set sn su.name with
             | none => (0 : ℚ)
             | some v => v)
          - net.storage_inflow sn su.name * (net.snapshot_weightings sn : ℚ) := by
  refine ⟨?_, spill_append_fst net snapshots _, ?_, ?_⟩
  · refine List.mem_map.mpr ⟨((su.name, sn), socConstraintAt net snapshots su i sn), ?_, rfl⟩
    refine List.mem_flatMap.mpr ⟨su, hsu, ?_⟩
    refine List.mem_map.mpr ⟨(i, sn), ?_, rfl⟩
    rw [List.mem_enum_iff_get?]
    exact hsn
  · by_cases hsp : (su.name, sn) ∈ spill_index net snapshots <;>
      by_cases hc : i = 0 ∧ su.cyclic_state_of_charge = false <;>
        cases hset : net.state_of_charge_set sn su.name <;>
          simp [spill_append, socConstraintAt, pyPrev, hsp, hc, hset, List.append_assoc]
  · by_cases hsp : (su.name, sn) ∈ spill_index net snapshots <;>
      by_cases hc : i = 0 ∧ su.cyclic_state_of_charge = false <;>
        cases hset : net.state_of_charge_set sn su.name <;>
          simp [spill_append, socConstraintAt, hsp, hc, hset]

/-- Witness for `C2_soc_previous_term` at the non-cyclic unit `su1` of
`net2`, first snapshot of the window. -/
theorem C2_soc_previous_term_witness :
    (su1 ∈ net2.storage_units ∧ (["t0", "t1"] : List String).get? 0 = some "t0")
    ∧ (spill_append net2 ["t0", "t1"] ((su1.name, "t0"), socConstraintAt net2 ["t0", "t1"] su1 0 "t0")
        ∈ state_of_charge_constraints net2 ["t0", "t1"]
      ∧ (spill_append net2 ["t0", "t1"]
          ((su1.name, "t0"), socConstraintAt net2 ["t0", "t1"] su1 0 "t0")).1
          = (su1.name, "t0")
      ∧ (spill_append net2 ["t0", "t1"]
          ((su1.name, "t0"), socConstraintAt net2 ["t0", "t1"] su1 0 "t0")).2.lhs.vars
          = (if 0 = 0 ∧ su1.cyclic_state_of_charge = false then ([] : List (ℚ × LVar))
             else [((1 - su1.standing_loss) ^ net2.snapshot_weightings "t0",
                    LVar.state_of_charge su1.name
                      (if 0 = 0 then (["t0", "t1"] : List String).getLastD ""
                       else (["t0", "t1"] : List String).getD (0 - 1) ""))])
            ++ ((match net2.state_of_charge_set "t0" su1.name with
                 | none => [((-1 : ℚ), LVar.state_of_charge su1.name "t0")]
                 | some _ => ([] : List (ℚ × LVar)))
                ++ [(su1.efficiency_store * (net2.snapshot_weightings "t0" : ℚ),
                     LVar.storage_p_store su1.name "t0"),
                    (-(1 / su1.efficiency_dispatch) * (net2.snapshot_weightings "t0" : ℚ),
                     LVar.storage_p_dispatch su1.name "t0")]
                ++ (if (spill_index net2 ["t0", "t1"]).contains (su1.name, "t0") then
                      [(-(1 : ℚ) * (lastElapsed net2 ["t0", "t1"] : ℚ),
                        LVar.storage_p_spill su1.name "t0")]
                    else []))
      ∧ (spill_append net2 ["t0", "t1"]
          ((su1.name, "t0"), socConstraintAt net2 ["t0", "t1"] su1 0 "t0")).2.rhs.constant
          = (if 0 = 0 ∧ su1.cyclic_state_of_charge = false then
               -(((1 - su1.standing_loss) ^ net2.snapshot_weightings "t0")
                  * su1.state_of_charge_initial)
             else 0)
            + (match net2.state_of_charge_set "t0" su1.name with
               | none => (0 : ℚ)
               | some v => v)
            - net2.storage_inflow "t0" su1.name * (net2.snapshot_weightings "t0" : ℚ)) :=
  ⟨⟨List.mem_cons_self su1 [su2], rfl⟩,
   C2_soc_previous_term net2 ["t0", "t1"] su1 0 "t0" (List.mem_cons_self su1 [su2]) rfl⟩

/-- C9 (counterexample): with the recognized formulation "kirchhoff" the
model does contain per-bus nodal balance constraints, yet result extraction
writes no marginal prices — refuting the claim that they are written for
every recognized formulation. -/
theorem C9_counterexample :
    extract_marginal_price net1 (network_lopf_model net1 (some ["t0"]) "kirchhoff" 0)
        "kirchhoff" (fun _ => 0) = none
    ∧ (network_lopf_model net1 (some ["t0"]) "kirchhoff" 0).power_balance ≠ [] := by
  decide

/-- C9 (amended): only for formulation "angles" does result extraction pair
each bus-and-snapshot nodal balance constraint with its dual value and write
the result into `buses_t.marginal_price`; for "ptdf", "cycles" and
"kirchhoff" no marginal prices are written. -/
theorem C9_marginal_prices_only_for_angles (net : Network) (snapshots : List String)
    (tol : ℚ) (dual : LConstraint → ℚ) (hb : net.buses ≠ []) :
    extract_marginal_price net (network_lopf_model net (some snapshots) "angles" tol)
        "angles" dual
      = some ((define_nodal_balance_constraints net snapshots).map fun kc => (kc.1, dual kc.2))
    ∧ ∀ f ∈ (["ptdf", "cycles", "kirchhoff"] : List String),
        extract_marginal_price net (network_lopf_model net (some snapshots) f tol) f dual
          = none := by
  constructor
  · unfold extract_marginal_price
    rw [if_pos ⟨hb, rfl⟩]
    have hpb : (network_lopf_model net (some snapshots) "angles" tol).power_balance
        = define_nodal_balance_constraints net snapshots := by
      simp [network_lopf_model]
    rw [hpb]
  · intro f hf
    unfold extract_marginal_price
    rw [if_neg]
    simp only [List.mem_cons, List.not_mem_nil, or_false] at hf
    rcases hf with rfl | rfl | rfl <;> simp

/-- Witness for `C9_marginal_prices_only_for_angles` at `net1`. -/
theorem C9_marginal_prices_only_for_angles_witness :
    net1.buses ≠ []
    ∧ (extract_marginal_price net1 (network_lopf_model net1 (some ["t0"]) "angles" 0)
          "angles" (fun _ => 3)
        = some ((define_nodal_balance_constraints net1 ["t0"]).map fun kc => (kc.1, 3))
      ∧ ∀ f ∈ (["ptdf", "cycles", "kirchhoff"] : List String),
          extract_marginal_price net1 (network_lopf_model net1 (some ["t0"]) f 0) f
              (fun _ => 3)
            = none) :=
  ⟨by decide, C9_marginal_prices_only_for_angles net1 ["t0"] 0 (fun _ => 3) (by decide)⟩

end PyPSA
